import Mathlib

/-!
Verification of the points / leaderboard / reward-redemption subsystem of the
ShortHack student-platform backend.  The Lean definitions below are a shallow
embedding of `app/crud.py` (together with the row types of `app/models.py`):

* each ORM table becomes a Lean structure and the database session becomes an
  explicit `DB` value threaded through the operations;
* SQLAlchemy queries (`filter`, `first`, `order_by`, `limit`, `func.sum`,
  `func.count`, outer joins with `coalesce`) become the corresponding list
  operations;
* Python's `int()` truncation and its `x or default` idiom are modelled by
  dedicated helpers (`pyInt`, `pyOrInt`); the float score arithmetic of
  `submit_game_answers` is idealised as exact rational arithmetic;
* fallible operations return `Option` (the Python functions return `None`
  on the corresponding paths).
-/

namespace ShortHack

/-- Row of the `users` table (`app/models.py`, class `User`); only the columns
read by the operations under study are carried. -/
structure User where
  id : Nat
  full_name : String
  deriving Repr, DecidableEq

/-- Row of the `games` table (`app/models.py`, class `Game`). -/
structure Game where
  id : Nat
  points_reward : Int
  is_active : Bool
  deriving Repr, DecidableEq

/-- Row of the `game_questions` table (`app/models.py`, class `GameQuestion`). -/
structure GameQuestion where
  id : Nat
  game_id : Nat
  correct_answer : String
  order_index : Nat
  deriving Repr, DecidableEq

/-- Row of the `game_results` table (`app/models.py`, class `GameResult`).
The `score` column receives the Python float `score_percentage`; it is
modelled as an exact rational. -/
structure GameResult where
  id : Nat
  user_id : Nat
  game_id : Nat
  score : Rat
  total_points : Int
  deriving Repr, DecidableEq

/-- Row of the `rewards` table (`app/models.py`, class `Reward`). -/
structure Reward where
  id : Nat
  points_required : Int
  is_available : Bool
  stock_quantity : Int
  deriving Repr, DecidableEq

/-- Row of the `reward_claims` table (`app/models.py`, class `RewardClaim`). -/
structure RewardClaim where
  id : Nat
  user_id : Nat
  reward_id : Nat
  status : String
  deriving Repr, DecidableEq

/-- The database state: one list per table, plus the autoincrement counters
that assign primary keys to freshly committed rows. -/
structure DB where
  users : List User
  games : List Game
  game_questions : List GameQuestion
  game_results : List GameResult
  rewards : List Reward
  reward_claims : List RewardClaim
  next_result_id : Nat
  next_claim_id : Nat
  deriving Repr, DecidableEq

/-- Python's `x or default` applied to an optional integer (SQL aggregates
return NULL on an empty set, and `0` is falsy in Python). -/
def pyOrInt : Option Int → Int → Int
  | none, d => d
  | some v, d => if v = 0 then d else v

/-- Python's `int(x)` conversion: truncation toward zero, on the exact
rational idealisation of the float argument. -/
def pyInt (x : Rat) : Int := x.num.tdiv x.den

/-- SQL `SUM` over a column: NULL (`none`) on an empty row set. -/
def sqlSum (l : List Int) : Option Int := if l.isEmpty then none else some l.sum

/-- Mutation of the single ORM-identity row returned by `.first()`: rewrite
the first list element satisfying `p` in place. -/
def updateFirst (p : α → Bool) (f : α → α) : List α → List α
  | [] => []
  | x :: xs => if p x then f x :: xs else x :: updateFirst p f xs

/-- `crud.get_game`: `db.query(Game).filter(Game.id == game_id).first()`. -/
def get_game (db : DB) (game_id : Nat) : Option Game :=
  (db.games.filter (fun g => g.id == game_id)).head?

/-- `crud.get_game_questions`: questions of one game, ordered by
`order_index`. -/
def get_game_questions (db : DB) (game_id : Nat) : List GameQuestion :=
  (db.game_questions.filter (fun q => q.game_id == game_id)).mergeSort
    (fun a b => decide (a.order_index ≤ b.order_index))

/-- `crud.get_user_game_results`: the first stored result for one
(user, game) pair. -/
def get_user_game_results (db : DB) (user_id game_id : Nat) : Option GameResult :=
  (db.game_results.filter
    (fun r => r.user_id == user_id && r.game_id == game_id)).head?

/-- `crud.create_game_result`: insert and commit a new `GameResult` row. -/
def create_game_result (db : DB) (user_id game_id : Nat) (score : Rat)
    (total_points : Int) : GameResult × DB :=
  let db_result : GameResult :=
    ⟨db.next_result_id, user_id, game_id, score, total_points⟩
  (db_result,
   { db with game_results := db.game_results ++ [db_result],
             next_result_id := db.next_result_id + 1 })

/-- `crud.get_user_total_points`: `SUM(total_points)` over the user's
results, with the Python `result or 0` fallback. -/
def get_user_total_points (db : DB) (user_id : Nat) : Int :=
  pyOrInt
    (sqlSum ((db.game_results.filter (fun r => r.user_id == user_id)).map
      (fun r => r.total_points))) 0

/-- `crud.get_user_games_played`: `COUNT` of the user's results. -/
def get_user_games_played (db : DB) (user_id : Nat) : Nat :=
  (db.game_results.filter (fun r => r.user_id == user_id)).length

/-- The per-question check inside `crud.submit_game_answers`:
`user_answer = answers.get(str(question.id))` followed by
`if user_answer and user_answer == question.correct_answer`.  A missing key
gives `None`, and both `None` and the empty string are falsy. -/
def answer_is_correct (answers : List (Nat × String)) (q : GameQuestion) : Bool :=
  match answers.lookup q.id with
  | some a => a != "" && a == q.correct_answer
  | none => false

/-- `crud.submit_game_answers`: scoring and persistence of one quiz
submission.  Returns the Python return value together with the resulting
database state. -/
def submit_game_answers (db : DB) (game_id user_id : Nat)
    (answers : List (Nat × String)) : Option GameResult × DB :=
  match get_game db game_id with
  | none => (none, db)
  | some game =>
    let questions := get_game_questions db game_id
    if questions.isEmpty then (none, db)
    else
      match get_user_game_results db user_id game_id with
      | some existing_result => (some existing_result, db)
      | none =>
        let correct_answers : Nat := questions.countP (answer_is_correct answers)
        let score_percentage : Rat :=
          ((correct_answers : Rat) / (questions.length : Rat)) * 100
        let points_earned : Int :=
          pyInt ((score_percentage / 100) * (game.points_reward : Rat))
        let out := create_game_result db user_id game_id score_percentage points_earned
        (some out.1, out.2)

/-- The freshly scored result row constructed by the final branch of
`submit_game_answers` (a transparent factoring of that branch's three local
computations). -/
def scored_result (db : DB) (game_id user_id : Nat) (answers : List (Nat × String))
    (game : Game) : GameResult :=
  let questions := get_game_questions db game_id
  let correct_answers : Nat := questions.countP (answer_is_correct answers)
  let score_percentage : Rat :=
    ((correct_answers : Rat) / (questions.length : Rat)) * 100
  ⟨db.next_result_id, user_id, game_id, score_percentage,
   pyInt ((score_percentage / 100) * (game.points_reward : Rat))⟩

/-- One row of `crud.get_leaderboard`'s outer join between `users` and the
grouped results subquery; `COALESCE` turns the NULLs of a user with no
results into `0`. -/
structure LbRow where
  user_id : Nat
  full_name : String
  total_points : Int
  games_played : Int
  deriving Repr, DecidableEq

/-- One entry of the list returned by `crud.get_leaderboard`. -/
structure LeaderboardEntry where
  rank : Nat
  user_id : Nat
  full_name : String
  total_points : Int
  games_played : Int
  deriving Repr, DecidableEq

/-- The joined row for one user: `COALESCE(SUM(total_points), 0)` and
`COALESCE(COUNT(id), 0)` from the grouped subquery, `0`/`0` when the outer
join finds no results for the user. -/
def leaderboard_row (db : DB) (u : User) : LbRow :=
  match db.game_results.filter (fun r => r.user_id == u.id) with
  | [] => ⟨u.id, u.full_name, 0, 0⟩
  | rs => ⟨u.id, u.full_name, (rs.map (fun r => r.total_points)).sum, (rs.length : Int)⟩

/-- The `ORDER BY total_points DESC` comparison of `crud.get_leaderboard`. -/
def lb_le (a b : LbRow) : Bool := decide (b.total_points ≤ a.total_points)

/-- The ordered (pre-`LIMIT`) result set of `crud.get_leaderboard`'s query. -/
def sorted_rows (db : DB) : List LbRow :=
  (db.users.map (leaderboard_row db)).mergeSort lb_le

/-- Building one leaderboard dict in the `for rank, (...) in
enumerate(leaderboard_data, 1)` loop, including the `total_points or 0` and
`games_played or 0` fallbacks. -/
def mkLeaderboardEntry (rank : Nat) (row : LbRow) : LeaderboardEntry :=
  ⟨rank, row.user_id, row.full_name,
   pyOrInt (some row.total_points) 0, pyOrInt (some row.games_played) 0⟩

/-- `enumerate(rows, n)` turned into leaderboard entries. -/
def rank_from (n : Nat) : List LbRow → List LeaderboardEntry
  | [] => []
  | row :: rest => mkLeaderboardEntry n row :: rank_from (n + 1) rest

/-- `crud.get_leaderboard`: ordered and truncated rows, then 1-based rank
assignment by enumeration. -/
def get_leaderboard (db : DB) (limit : Nat) : List LeaderboardEntry :=
  rank_from 1 ((sorted_rows db).take limit)

/-- `crud.get_reward`: `db.query(Reward).filter(Reward.id == reward_id).first()`. -/
def get_reward (db : DB) (reward_id : Nat) : Option Reward :=
  (db.rewards.filter (fun r => r.id == reward_id)).head?

/-- The in-place ORM mutation of the claimed reward row inside
`crud.create_reward_claim`: `reward.stock_quantity -= 1` followed by
`if reward.stock_quantity <= 0: reward.is_available = False`. -/
def claim_stock_update (r : Reward) : Reward :=
  let r' := { r with stock_quantity := r.stock_quantity - 1 }
  if r'.stock_quantity ≤ 0 then { r' with is_available := false } else r'

/-- `crud.create_reward_claim`: unconditionally insert a pending claim, then
decrement the reward's stock when the reward exists with positive stock. -/
def create_reward_claim (db : DB) (user_id reward_id : Nat) : RewardClaim × DB :=
  let db_claim : RewardClaim := ⟨db.next_claim_id, user_id, reward_id, "pending"⟩
  let db1 : DB :=
    { db with reward_claims := db.reward_claims ++ [db_claim],
              next_claim_id := db.next_claim_id + 1 }
  match get_reward db1 reward_id with
  | some reward =>
    if 0 < reward.stock_quantity then
      (db_claim,
       { db1 with rewards :=
           updateFirst (fun r => r.id == reward_id) claim_stock_update db1.rewards })
    else (db_claim, db1)
  | none => (db_claim, db1)

/-- `crud.can_user_claim_reward`: the non-mutating claimability predicate. -/
def can_user_claim_reward (db : DB) (user_id reward_id : Nat) : Bool :=
  let user_points := get_user_total_points db user_id
  match get_reward db reward_id with
  | none => false
  | some reward =>
    if !reward.is_available || decide (reward.stock_quantity ≤ 0) then false
    else decide (reward.points_required ≤ user_points)

/-- `crud.update_reward_claim_status`: look the claim up by id and overwrite
its `status` column with the given string. -/
def update_reward_claim_status (db : DB) (claim_id : Nat) (status : String) :
    Option RewardClaim × DB :=
  match (db.reward_claims.filter (fun c => c.id == claim_id)).head? with
  | none => (none, db)
  | some db_claim =>
    let claims' :=
      updateFirst (fun c => c.id == claim_id)
        (fun c => { c with status := status }) db.reward_claims
    (some { db_claim with status := status }, { db with reward_claims := claims' })

/-! Concrete stores used to instantiate the theorems below. -/

/-- The empty store. -/
def emptyDB : DB := ⟨[], [], [], [], [], [], 1, 1⟩

/-- A three-question game. -/
def exGame : Game := ⟨1, 100, true⟩

def exQ1 : GameQuestion := ⟨1, 1, "a", 0⟩

def exQ2 : GameQuestion := ⟨2, 1, "b", 1⟩

def exQ3 : GameQuestion := ⟨3, 1, "c", 2⟩

/-- Store with the three-question game and no prior results. -/
def exDB3 : DB := { emptyDB with games := [exGame], game_questions := [exQ1, exQ2, exQ3] }

/-- A submission answering exactly one of the three questions correctly. -/
def exAns3 : List (Nat × String) := [(1, "a")]

/-- Store with a game that has no questions at all. -/
def exDB4 : DB := { emptyDB with games := [exGame] }

/-- A previously stored result for user 7 on game 1. -/
def exRes5 : GameResult := ⟨1, 7, 1, 100, 100⟩

/-- Store in which user 7 has already played game 1. -/
def exDB5 : DB :=
  { emptyDB with games := [exGame], game_questions := [exQ1],
                 game_results := [exRes5], next_result_id := 2 }

/-- An available reward with a single unit of stock. -/
def exReward : Reward := ⟨1, 10, true, 1⟩

/-- Store holding only that reward. -/
def exDB2 : DB := { emptyDB with rewards := [exReward] }

/-- Store with three users whose point totals are 300, 200 and 100. -/
def exDB6 : DB :=
  { emptyDB with
      users := [⟨1, "u1"⟩, ⟨2, "u2"⟩, ⟨3, "u3"⟩],
      game_results := [⟨1, 1, 1, 100, 300⟩, ⟨2, 2, 1, 100, 200⟩, ⟨3, 3, 1, 100, 100⟩],
      next_result_id := 4 }

/-- A claim that has already been approved. -/
def exClaim8 : RewardClaim := ⟨1, 2, 3, "approved"⟩

/-- Store holding only that approved claim. -/
def exDB8 : DB := { emptyDB with reward_claims := [exClaim8], next_claim_id := 2 }

/-- Store in which user 1 has two results and user 5 has none. -/
def exDB9 : DB :=
  { emptyDB with game_results := [⟨1, 1, 1, 100, 40⟩, ⟨2, 1, 2, 50, 10⟩],
                 next_result_id := 3 }

/-! General lemmas about the embedded operations. -/

theorem pyOrInt_some (v : Int) : pyOrInt (some v) 0 = v := by
  simp only [pyOrInt]
  split <;> omega

theorem mkLeaderboardEntry_rank (n : Nat) (row : LbRow) :
    (mkLeaderboardEntry n row).rank = n := rfl

theorem mkLeaderboardEntry_user_id (n : Nat) (row : LbRow) :
    (mkLeaderboardEntry n row).user_id = row.user_id := rfl

theorem mkLeaderboardEntry_full_name (n : Nat) (row : LbRow) :
    (mkLeaderboardEntry n row).full_name = row.full_name := rfl

theorem mkLeaderboardEntry_total_points (n : Nat) (row : LbRow) :
    (mkLeaderboardEntry n row).total_points = row.total_points := pyOrInt_some _

theorem mkLeaderboardEntry_games_played (n : Nat) (row : LbRow) :
    (mkLeaderboardEntry n row).games_played = row.games_played := pyOrInt_some _

theorem head_filter_updateFirst {α : Type} (p : α → Bool) (f : α → α)
    (hf : ∀ x, p x = true → p (f x) = true) :
    ∀ {l : List α} {a : α}, (l.filter p).head? = some a →
      ((updateFirst p f l).filter p).head? = some (f a) := by
  intro l
  induction l with
  | nil => intro a h; simp [List.filter] at h
  | cons x xs ih =>
    intro a h
    by_cases hx : p x = true
    · rw [List.filter_cons_of_pos hx] at h
      simp only [List.head?_cons, Option.some.injEq] at h
      subst h
      simp only [updateFirst, hx, if_true]
      rw [List.filter_cons_of_pos (hf x hx)]
      rfl
    · have hx' : p x = false := by simpa using hx
      rw [List.filter_cons_of_neg (by simp [hx'])] at h
      simp only [updateFirst, hx', if_false, Bool.false_eq_true]
      rw [List.filter_cons_of_neg (by simp [hx'])]
      exact ih h

theorem submit_game_answers_no_questions (db : DB) (game_id user_id : Nat)
    (answers : List (Nat × String)) (h : get_game_questions db game_id = []) :
    submit_game_answers db game_id user_id answers = (none, db) := by
  unfold submit_game_answers
  cases hg : get_game db game_id with
  | none => rfl
  | some game => simp [h]

theorem submit_game_answers_existing (db : DB) (game_id user_id : Nat)
    (answers : List (Nat × String)) (game : Game) (ex : GameResult)
    (hg : get_game db game_id = some game)
    (hq : get_game_questions db game_id ≠ [])
    (he : get_user_game_results db user_id game_id = some ex) :
    submit_game_answers db game_id user_id answers = (some ex, db) := by
  unfold submit_game_answers
  rw [hg]
  have hq' : (get_game_questions db game_id).isEmpty = false := by
    cases hl : get_game_questions db game_id with
    | nil => exact absurd hl hq
    | cons y ys => rfl
  simp [hq', he]

theorem submit_game_answers_new (db : DB) (game_id user_id : Nat)
    (answers : List (Nat × String)) (game : Game)
    (hg : get_game db game_id = some game)
    (hq : get_game_questions db game_id ≠ [])
    (he : get_user_game_results db user_id game_id = none) :
    submit_game_answers db game_id user_id answers =
      (some (scored_result db game_id user_id answers game),
       { db with
           game_results :=
             db.game_results ++ [scored_result db game_id user_id answers game],
           next_result_id := db.next_result_id + 1 }) := by
  unfold submit_game_answers
  rw [hg]
  have hq' : (get_game_questions db game_id).isEmpty = false := by
    cases hl : get_game_questions db game_id with
    | nil => exact absurd hl hq
    | cons y ys => rfl
  simp [hq', he, create_game_result, scored_result]

theorem pyInt_eq_floor {x : Rat} (hx : 0 ≤ x) : pyInt x = ⌊x⌋ := by
  rw [pyInt, Rat.floor_def,
    Int.tdiv_eq_ediv (Rat.num_nonneg.mpr hx) (by positivity)]

theorem get_reward_ignores_claims (db : DB) (reward_id : Nat)
    (claims : List RewardClaim) (n : Nat) :
    get_reward { db with reward_claims := claims, next_claim_id := n } reward_id
      = get_reward db reward_id := rfl

theorem create_reward_claim_fst (db : DB) (user_id reward_id : Nat) :
    (create_reward_claim db user_id reward_id).1
      = ⟨db.next_claim_id, user_id, reward_id, "pending"⟩ := by
  simp only [create_reward_claim]
  split
  · split <;> rfl
  · rfl

theorem create_reward_claim_claims (db : DB) (user_id reward_id : Nat) :
    (create_reward_claim db user_id reward_id).2.reward_claims
      = db.reward_claims ++ [⟨db.next_claim_id, user_id, reward_id, "pending"⟩] := by
  simp only [create_reward_claim]
  split
  · split <;> rfl
  · rfl

theorem rank_from_length (n : Nat) (l : List LbRow) :
    (rank_from n l).length = l.length := by
  induction l generalizing n with
  | nil => rfl
  | cons x xs ih => simp [rank_from, ih]

theorem rank_from_get (n : Nat) (l : List LbRow) (i : Fin (rank_from n l).length) :
    ((rank_from n l).get i).rank = n + i.1 := by
  induction l generalizing n with
  | nil => exact absurd i.2 (by simp [rank_from])
  | cons x xs ih =>
    match i with
    | ⟨0, h⟩ => simp [rank_from, mkLeaderboardEntry_rank, List.get]
    | ⟨j + 1, h⟩ =>
      have hj : j < (rank_from (n + 1) xs).length := by
        simpa [rank_from] using h
      have := ih (n + 1) ⟨j, hj⟩
      simp only [rank_from, List.get] at this ⊢
      omega

theorem rank_from_take (n k : Nat) (l : List LbRow) :
    rank_from n (l.take k) = (rank_from n l).take k := by
  induction l generalizing n k with
  | nil => simp [rank_from]
  | cons x xs ih =>
    cases k with
    | zero => simp [rank_from]
    | succ k => simp [rank_from, List.take, ih]

theorem mem_rank_from {e : LeaderboardEntry} :
    ∀ {n : Nat} {l : List LbRow}, e ∈ rank_from n l →
      ∃ r ∈ l, e.user_id = r.user_id ∧ e.full_name = r.full_name ∧
        e.total_points = r.total_points ∧ e.games_played = r.games_played := by
  intro n l
  induction l generalizing n with
  | nil => intro h; simp [rank_from] at h
  | cons x xs ih =>
    intro h
    rcases List.mem_cons.mp h with h | h
    · subst h
      exact ⟨x, List.mem_cons_self x xs,
        mkLeaderboardEntry_user_id _ _, mkLeaderboardEntry_full_name _ _,
        mkLeaderboardEntry_total_points _ _, mkLeaderboardEntry_games_played _ _⟩
    · rcases ih h with ⟨r, hr, h1, h2, h3, h4⟩
      exact ⟨r, List.mem_cons_of_mem _ hr, h1, h2, h3, h4⟩

theorem rank_from_mem {r : LbRow} {l : List LbRow} (h : r ∈ l) (n : Nat) :
    ∃ e ∈ rank_from n l, e.user_id = r.user_id ∧ e.full_name = r.full_name ∧
      e.total_points = r.total_points ∧ e.games_played = r.games_played := by
  induction l generalizing n with
  | nil => simp at h
  | cons x xs ih =>
    rcases List.mem_cons.mp h with h | h
    · subst h
      exact ⟨mkLeaderboardEntry n r, List.mem_cons_self _ _,
        mkLeaderboardEntry_user_id _ _, mkLeaderboardEntry_full_name _ _,
        mkLeaderboardEntry_total_points _ _, mkLeaderboardEntry_games_played _ _⟩
    · rcases ih h (n + 1) with ⟨e, he, h1, h2, h3, h4⟩
      exact ⟨e, List.mem_cons_of_mem _ he, h1, h2, h3, h4⟩

theorem rank_from_pairwise (n : Nat) (l : List LbRow)
    (h : l.Pairwise (fun a b => lb_le a b = true)) :
    (rank_from n l).Pairwise
      (fun e1 e2 => e2.total_points ≤ e1.total_points) := by
  induction l generalizing n with
  | nil => exact List.Pairwise.nil
  | cons x xs ih =>
    rcases List.pairwise_cons.mp h with ⟨hx, hxs⟩
    refine List.pairwise_cons.mpr ⟨?_, ih (n + 1) hxs⟩
    intro e he
    rcases mem_rank_from he with ⟨r, hr, _, _, htp, _⟩
    have hle := hx r hr
    simp only [lb_le, decide_eq_true_eq] at hle
    rw [htp, mkLeaderboardEntry_total_points]
    exact hle

theorem rank_from_map_games (n : Nat) (l : List LbRow) :
    (rank_from n l).map (fun e => e.games_played)
      = l.map (fun row => row.games_played) := by
  induction l generalizing n with
  | nil => rfl
  | cons x xs ih => simp [rank_from, mkLeaderboardEntry_games_played, ih]

theorem lb_le_trans : ∀ a b c : LbRow,
    lb_le a b = true → lb_le b c = true → lb_le a c = true := by
  intro a b c
  simp only [lb_le, decide_eq_true_eq]
  omega

theorem lb_le_total : ∀ a b : LbRow, (lb_le a b || lb_le b a) = true := by
  intro a b
  simp only [lb_le, Bool.or_eq_true, decide_eq_true_eq]
  omega

theorem sorted_rows_pairwise (db : DB) :
    (sorted_rows db).Pairwise (fun a b => lb_le a b = true) :=
  List.sorted_mergeSort lb_le_trans lb_le_total _

theorem sorted_rows_perm (db : DB) :
    (sorted_rows db).Perm (db.users.map (leaderboard_row db)) :=
  List.mergeSort_perm _ _

theorem sorted_rows_length (db : DB) :
    (sorted_rows db).length = db.users.length := by
  rw [sorted_rows, List.length_mergeSort, List.length_map]

theorem leaderboard_row_user_id (db : DB) (u : User) :
    (leaderboard_row db u).user_id = u.id := by
  unfold leaderboard_row
  split <;> rfl

theorem leaderboard_row_full_name (db : DB) (u : User) :
    (leaderboard_row db u).full_name = u.full_name := by
  unfold leaderboard_row
  split <;> rfl

theorem leaderboard_row_games (db : DB) (u : User) :
    (leaderboard_row db u).games_played
      = ((db.game_results.filter (fun r => r.user_id == u.id)).length : Int) := by
  unfold leaderboard_row
  split
  next heq => simp [heq]
  next heq => rfl

theorem leaderboard_row_of_no_results (db : DB) (u : User)
    (h : db.game_results.filter (fun r => r.user_id == u.id) = []) :
    leaderboard_row db u = ⟨u.id, u.full_name, 0, 0⟩ := by
  unfold leaderboard_row
  rw [h]

theorem updateFirst_length {α : Type} (p : α → Bool) (f : α → α) (l : List α) :
    (updateFirst p f l).length = l.length := by
  induction l with
  | nil => rfl
  | cons x xs ih =>
    simp only [updateFirst]
    split <;> simp [ih]

theorem get_user_total_points_eq (db : DB) (user_id : Nat) :
    get_user_total_points db user_id
      = ((db.game_results.filter (fun r => r.user_id == user_id)).map
          (fun r => r.total_points)).sum := by
  unfold get_user_total_points
  cases h : (db.game_results.filter (fun r => r.user_id == user_id)).map
      (fun r => r.total_points) with
  | nil => rfl
  | cons x xs => simp [sqlSum, pyOrInt_some]

theorem can_user_claim_reward_iff (db : DB) (user_id reward_id : Nat) :
    can_user_claim_reward db user_id reward_id = true ↔
      ∃ rew : Reward, get_reward db reward_id = some rew ∧
        rew.is_available = true ∧ 0 < rew.stock_quantity ∧
        rew.points_required ≤ get_user_total_points db user_id := by
  simp only [can_user_claim_reward]
  cases h : get_reward db reward_id with
  | none => simp
  | some rew =>
    simp only [Option.some.injEq]
    constructor
    · intro hcan
      by_cases hc : (!rew.is_available || decide (rew.stock_quantity ≤ 0)) = true
      · rw [if_pos hc] at hcan; cases hcan
      · rw [if_neg hc] at hcan
        simp only [Bool.or_eq_true, decide_eq_true_eq, not_or,
          Bool.not_eq_true', Bool.not_eq_false] at hc
        obtain ⟨ha, hs⟩ := hc
        exact ⟨rew, rfl, ha, by omega, by simpa using hcan⟩
    · rintro ⟨rew', hrr, ha, hs, hp⟩
      obtain rfl : rew = rew' := hrr
      rw [if_neg]
      · simpa using hp
      · simp only [Bool.or_eq_true, decide_eq_true_eq, not_or,
          Bool.not_eq_true', Bool.not_eq_false]
        exact ⟨ha, by omega⟩

theorem create_reward_claim_rewards_of_none (db : DB) (user_id reward_id : Nat)
    (h : get_reward db reward_id = none) :
    (create_reward_claim db user_id reward_id).2.rewards = db.rewards := by
  simp only [create_reward_claim, get_reward_ignores_claims, h]

theorem create_reward_claim_rewards_of_nonpositive (db : DB)
    (user_id reward_id : Nat) (rew : Reward)
    (h : get_reward db reward_id = some rew) (hs : rew.stock_quantity ≤ 0) :
    (create_reward_claim db user_id reward_id).2.rewards = db.rewards := by
  simp only [create_reward_claim, get_reward_ignores_claims, h]
  rw [if_neg (by omega)]

theorem create_reward_claim_rewards_of_positive (db : DB)
    (user_id reward_id : Nat) (rew : Reward)
    (h : get_reward db reward_id = some rew) (hs : 0 < rew.stock_quantity) :
    (create_reward_claim db user_id reward_id).2.rewards
      = updateFirst (fun r => r.id == reward_id) claim_stock_update db.rewards := by
  simp only [create_reward_claim, get_reward_ignores_claims, h]
  rw [if_pos hs]

theorem claim_stock_update_id (r : Reward) :
    (claim_stock_update r).id = r.id := by
  simp only [claim_stock_update]
  split <;> rfl

theorem claim_stock_update_stock (r : Reward) :
    (claim_stock_update r).stock_quantity = r.stock_quantity - 1 := by
  simp only [claim_stock_update]
  split <;> rfl

theorem claim_stock_update_avail (r : Reward) :
    (claim_stock_update r).is_available
      = (if r.stock_quantity - 1 ≤ 0 then false else r.is_available) := by
  simp only [claim_stock_update]
  split <;> rfl

theorem get_reward_after_claim (db : DB) (user_id reward_id : Nat) (rew : Reward)
    (h : get_reward db reward_id = some rew) (hs : 0 < rew.stock_quantity) :
    get_reward (create_reward_claim db user_id reward_id).2 reward_id
      = some (claim_stock_update rew) := by
  have hrw := create_reward_claim_rewards_of_positive db user_id reward_id rew h hs
  show ((create_reward_claim db user_id reward_id).2.rewards.filter
    (fun r => r.id == reward_id)).head? = some (claim_stock_update rew)
  rw [hrw]
  exact head_filter_updateFirst _ claim_stock_update
    (fun x hx => by rw [beq_iff_eq] at hx ⊢; rw [claim_stock_update_id, hx]) h

theorem sum_indicator_of_not_mem (k : Nat) (keys : List Nat) (h : k ∉ keys) :
    (keys.map (fun x => if k = x then (1:Int) else 0)).sum = 0 := by
  induction keys with
  | nil => rfl
  | cons y ys ih =>
    simp only [List.map_cons, List.sum_cons]
    have hky : k ≠ y := fun e => h (e ▸ List.mem_cons_self y ys)
    rw [if_neg hky, ih (fun hm => h (List.mem_cons_of_mem _ hm))]
    ring

theorem sum_indicator_nodup (k : Nat) (keys : List Nat)
    (hnd : keys.Nodup) (hk : k ∈ keys) :
    (keys.map (fun x => if k = x then (1:Int) else 0)).sum = 1 := by
  induction keys with
  | nil => simp at hk
  | cons y ys ih =>
    rcases List.nodup_cons.mp hnd with ⟨hy, hys⟩
    simp only [List.map_cons, List.sum_cons]
    rcases List.mem_cons.mp hk with h | h
    · subst h
      rw [if_pos rfl, sum_indicator_of_not_mem k ys hy]
      ring
    · have hky : k ≠ y := by rintro rfl; exact hy h
      rw [if_neg hky, ih hys h]
      ring

theorem sum_filter_counts (keys : List Nat) (items : List GameResult)
    (hnd : keys.Nodup) (hall : ∀ it ∈ items, it.user_id ∈ keys) :
    (keys.map
      (fun k => ((items.filter (fun r => r.user_id == k)).length : Int))).sum
      = (items.length : Int) := by
  induction items with
  | nil => simp
  | cons it rest ih =>
    have hrest : ∀ x ∈ rest, x.user_id ∈ keys :=
      fun x hx => hall x (List.mem_cons_of_mem _ hx)
    have hit : it.user_id ∈ keys := hall it (List.mem_cons_self _ _)
    have hfun :
        (fun k => ((List.filter (fun r => r.user_id == k) (it :: rest)).length : Int))
          = fun k => (if it.user_id = k then (1:Int) else 0)
              + ((List.filter (fun r => r.user_id == k) rest).length : Int) := by
      funext k
      rw [List.filter_cons]
      by_cases h : it.user_id = k
      · simp [h]; ring
      · simp [h]
    rw [hfun, List.sum_map_add, sum_indicator_nodup it.user_id keys hnd hit, ih hrest,
      List.length_cons]
    push_cast
    ring

theorem exDB3_questions : get_game_questions exDB3 1 = [exQ1, exQ2, exQ3] := by
  unfold get_game_questions
  rw [show exDB3.game_questions.filter (fun q => q.game_id == 1)
    = [exQ1, exQ2, exQ3] from rfl]
  exact List.mergeSort_of_sorted (by decide)

theorem exDB4_questions : get_game_questions exDB4 1 = [] := by
  unfold get_game_questions
  rw [show exDB4.game_questions.filter (fun q => q.game_id == 1)
    = [] from rfl]
  exact List.mergeSort_nil

theorem exDB5_questions : get_game_questions exDB5 1 = [exQ1] := by
  unfold get_game_questions
  rw [show exDB5.game_questions.filter (fun q => q.game_id == 1)
    = [exQ1] from rfl]
  exact List.mergeSort_of_sorted (by decide)

/-! Claim theorems. -/

/-- Claim C1, counterexample: on a store with no rewards at all, claiming
reward 1 does not fail and does not leave the state unchanged — a pending
`RewardClaim` row is created even though the reward does not exist, refuting
the claim that the operation fails with a typed error and creates a claim
only when all precondition checks pass. -/
theorem c1_counterexample :
    get_reward emptyDB 1 = none ∧
    (create_reward_claim emptyDB 9 1).2.reward_claims
      = [⟨1, 9, 1, "pending"⟩] := ⟨rfl, rfl⟩

/-- Claim C1 (corrected): `create_reward_claim` performs no precondition
checks and never fails: it always appends exactly one pending claim row,
whatever the reward's existence, availability, stock, or the user's points;
the reward table is touched only when the reward exists with positive
stock; the three checks of the claim live only in the separate read-only
predicate `can_user_claim_reward`, which returns false exactly when the
reward is missing, unavailable, out of stock, or the user's total points are
below the requirement. -/
theorem c1_amended (db : DB) (user_id reward_id : Nat) :
    (create_reward_claim db user_id reward_id).1
        = ⟨db.next_claim_id, user_id, reward_id, "pending"⟩ ∧
    (create_reward_claim db user_id reward_id).2.reward_claims
        = db.reward_claims ++ [(create_reward_claim db user_id reward_id).1] ∧
    (get_reward db reward_id = none →
      (create_reward_claim db user_id reward_id).2.rewards = db.rewards) ∧
    (∀ rew : Reward, get_reward db reward_id = some rew →
      rew.stock_quantity ≤ 0 →
      (create_reward_claim db user_id reward_id).2.rewards = db.rewards) ∧
    (can_user_claim_reward db user_id reward_id = true ↔
      ∃ rew : Reward, get_reward db reward_id = some rew ∧
        rew.is_available = true ∧ 0 < rew.stock_quantity ∧
        rew.points_required ≤ get_user_total_points db user_id) := by
  refine ⟨create_reward_claim_fst db user_id reward_id, ?_, ?_, ?_, ?_⟩
  · rw [create_reward_claim_claims, create_reward_claim_fst]
  · exact create_reward_claim_rewards_of_none db user_id reward_id
  · exact fun rew h hs =>
      create_reward_claim_rewards_of_nonpositive db user_id reward_id rew h hs
  · exact can_user_claim_reward_iff db user_id reward_id

/-- Claim C1, witness: the amended theorem applied to the store with no
rewards, discharging the reward-not-found hypothesis. -/
theorem c1_witness :
    (create_reward_claim emptyDB 9 1).2.rewards = emptyDB.rewards :=
  (c1_amended emptyDB 9 1).2.2.1 rfl

/-- Claim C2 (confirmed): claiming an existing, available reward with at
least one unit of stock creates exactly one pending claim row for that
(user, reward) pair, decrements the reward's stock by exactly one, and
turns its availability off exactly when the decremented stock reaches
zero. -/
theorem c2_claim_success (db : DB) (user_id reward_id : Nat) (rew : Reward)
    (hfind : get_reward db reward_id = some rew)
    (havail : rew.is_available = true)
    (hstock : 1 ≤ rew.stock_quantity) :
    (create_reward_claim db user_id reward_id).1
        = ⟨db.next_claim_id, user_id, reward_id, "pending"⟩ ∧
    (create_reward_claim db user_id reward_id).2.reward_claims
        = db.reward_claims ++ [⟨db.next_claim_id, user_id, reward_id, "pending"⟩] ∧
    ∃ rew' : Reward,
      get_reward (create_reward_claim db user_id reward_id).2 reward_id = some rew' ∧
      rew'.stock_quantity = rew.stock_quantity - 1 ∧
      (rew'.is_available = false ↔ rew.stock_quantity - 1 = 0) := by
  refine ⟨create_reward_claim_fst db user_id reward_id,
    create_reward_claim_claims db user_id reward_id,
    claim_stock_update rew,
    get_reward_after_claim db user_id reward_id rew hfind (by omega),
    claim_stock_update_stock rew, ?_⟩
  rw [claim_stock_update_avail]
  by_cases hc : rew.stock_quantity - 1 ≤ 0
  · rw [if_pos hc]
    simp only [true_iff]
    omega
  · rw [if_neg hc, havail]
    simp only [Bool.true_eq_false, false_iff]
    omega

/-- Claim C2, witness: the theorem applied to a store holding one available
reward with stock 1: the claim row appears, stock drops to 0 and the
availability flag switches off. -/
theorem c2_witness :
    (create_reward_claim exDB2 9 1).1 = ⟨exDB2.next_claim_id, 9, 1, "pending"⟩ ∧
    (create_reward_claim exDB2 9 1).2.reward_claims
        = exDB2.reward_claims ++ [⟨exDB2.next_claim_id, 9, 1, "pending"⟩] ∧
    ∃ rew' : Reward,
      get_reward (create_reward_claim exDB2 9 1).2 1 = some rew' ∧
      rew'.stock_quantity = exReward.stock_quantity - 1 ∧
      (rew'.is_available = false ↔ exReward.stock_quantity - 1 = 0) :=
  c2_claim_success exDB2 9 1 exReward rfl rfl (by decide)

/-- Claim C4 (confirmed): when a game's question set is empty, scoring a
submission returns the failure value (`None` in the source) instead of
dividing by zero, and the store — in particular its results table — is left
completely unchanged. -/
theorem c4_empty_quiz (db : DB) (game_id user_id : Nat)
    (answers : List (Nat × String))
    (h : get_game_questions db game_id = []) :
    (submit_game_answers db game_id user_id answers).1 = none ∧
    (submit_game_answers db game_id user_id answers).2 = db := by
  rw [submit_game_answers_no_questions db game_id user_id answers h]
  exact ⟨rfl, rfl⟩

/-- Claim C4, witness: the theorem applied to a store whose game 1 has no
questions. -/
theorem c4_witness :
    (submit_game_answers exDB4 1 7 []).1 = none ∧
    (submit_game_answers exDB4 1 7 []).2 = exDB4 :=
  c4_empty_quiz exDB4 1 7 [] exDB4_questions

/-- Claim C5 (confirmed): when a result already exists for the same
(user, game) pair, a second submission returns that stored result unchanged
and leaves the store untouched, whatever answers are submitted. -/
theorem c5_resubmission (db : DB) (game_id user_id : Nat)
    (answers : List (Nat × String)) (game : Game) (ex : GameResult)
    (hg : get_game db game_id = some game)
    (hq : get_game_questions db game_id ≠ [])
    (he : get_user_game_results db user_id game_id = some ex) :
    (submit_game_answers db game_id user_id answers).1 = some ex ∧
    (submit_game_answers db game_id user_id answers).2 = db := by
  rw [submit_game_answers_existing db game_id user_id answers game ex hg hq he]
  exact ⟨rfl, rfl⟩

/-- Claim C5, witness: user 7 already played game 1 in `exDB5`; a fresh
submission with different answers returns the stored result and changes
nothing. -/
theorem c5_witness :
    (submit_game_answers exDB5 1 7 [(1, "zzz")]).1 = some exRes5 ∧
    (submit_game_answers exDB5 1 7 [(1, "zzz")]).2 = exDB5 :=
  c5_resubmission exDB5 1 7 [(1, "zzz")] exGame exRes5 rfl
    (by rw [exDB5_questions]; exact fun hc => List.noConfusion hc) rfl

/-- Claim C8, counterexample: on a store whose only claim has status
"approved", `update_reward_claim_status` happily moves it back to
"pending", refuting the claim that terminal states never revert and that
the only possible transitions start from "pending". -/
theorem c8_counterexample :
    (update_reward_claim_status exDB8 1 "pending").1 = some ⟨1, 2, 3, "pending"⟩ ∧
    (update_reward_claim_status exDB8 1 "pending").2.reward_claims
      = [⟨1, 2, 3, "pending"⟩] := ⟨rfl, rfl⟩

/-- Claim C8 (corrected): `update_reward_claim_status` overwrites the status
of the first claim carrying the given id with an arbitrary caller-supplied
string — transitions out of "approved"/"rejected" and into strings outside
the documented status set included — adding or removing no rows; only when
no claim has the id does it leave the store unchanged. -/
theorem c8_amended (db : DB) (claim_id : Nat) (status : String) :
    ((db.reward_claims.filter (fun x => x.id == claim_id)).head? = none →
      update_reward_claim_status db claim_id status = (none, db)) ∧
    (∀ c : RewardClaim,
      (db.reward_claims.filter (fun x => x.id == claim_id)).head? = some c →
      (update_reward_claim_status db claim_id status).1
          = some { c with status := status } ∧
      ((update_reward_claim_status db claim_id status).2.reward_claims.filter
          (fun x => x.id == claim_id)).head? = some { c with status := status } ∧
      (update_reward_claim_status db claim_id status).2.reward_claims.length
          = db.reward_claims.length) := by
  constructor
  · intro h
    simp only [update_reward_claim_status, h]
  · intro c h
    simp only [update_reward_claim_status, h]
    refine ⟨trivial, ?_, updateFirst_length _ _ _⟩
    exact head_filter_updateFirst (fun x : RewardClaim => x.id == claim_id)
      (fun x : RewardClaim => { x with status := status }) (fun x hx => hx) h

/-- Claim C8, witness: the amended theorem applied to the approved claim of
`exDB8` with the undocumented status string "shipped". -/
theorem c8_witness :
    (update_reward_claim_status exDB8 1 "shipped").1
        = some { exClaim8 with status := "shipped" } ∧
    ((update_reward_claim_status exDB8 1 "shipped").2.reward_claims.filter
        (fun x => x.id == 1)).head? = some { exClaim8 with status := "shipped" } ∧
    (update_reward_claim_status exDB8 1 "shipped").2.reward_claims.length
        = exDB8.reward_claims.length :=
  (c8_amended exDB8 1 "shipped").2 exClaim8 rfl

/-- Claim C9 (confirmed): `get_user_total_points` returns the sum of
`total_points` over exactly the user's stored results (hence `0` when there
are none), and `get_user_games_played` returns their count; both are
functions of the store alone and mutate nothing. -/
theorem c9_aggregation (db : DB) (user_id : Nat) :
    get_user_total_points db user_id
        = ((db.game_results.filter (fun r => r.user_id == user_id)).map
            (fun r => r.total_points)).sum ∧
    (db.game_results.filter (fun r => r.user_id == user_id) = [] →
      get_user_total_points db user_id = 0) ∧
    get_user_games_played db user_id
        = (db.game_results.filter (fun r => r.user_id == user_id)).length := by
  refine ⟨get_user_total_points_eq db user_id, ?_, rfl⟩
  intro h
  rw [get_user_total_points_eq db user_id, h]
  rfl

/-- Claim C9, witness: user 5 has no results in `exDB9`, so the theorem
gives total points 0. -/
theorem c9_witness : get_user_total_points exDB9 5 = 0 :=
  (c9_aggregation exDB9 5).2.1 rfl

/-- Claim C10 (confirmed): a question counts as correct in scoring exactly
when the submitted answer is present, non-empty and string-equal to the
stored correct answer; a submitted empty string and a missing answer are
both scored incorrect, and a question whose stored correct answer is the
empty string can never be scored correct. -/
theorem c10_answer_semantics (answers : List (Nat × String)) (q : GameQuestion) :
    (answer_is_correct answers q = true ↔
      ∃ a : String, answers.lookup q.id = some a ∧ a ≠ "" ∧ a = q.correct_answer) ∧
    (answers.lookup q.id = some "" → answer_is_correct answers q = false) ∧
    (answers.lookup q.id = none → answer_is_correct answers q = false) ∧
    (q.correct_answer = "" → answer_is_correct answers q = false) := by
  refine ⟨?_, ?_, ?_, ?_⟩
  · unfold answer_is_correct
    cases h : answers.lookup q.id with
    | none => simp
    | some a =>
      simp only [Bool.and_eq_true, bne_iff_ne, ne_eq, beq_iff_eq,
        Option.some.injEq]
      constructor
      · rintro ⟨h1, h2⟩
        exact ⟨a, rfl, h1, h2⟩
      · rintro ⟨a', ha', h1, h2⟩
        subst ha'
        exact ⟨h1, h2⟩
  · intro h
    unfold answer_is_correct
    rw [h]
    simp
  · intro h
    unfold answer_is_correct
    rw [h]
  · intro h
    unfold answer_is_correct
    cases hl : answers.lookup q.id with
    | none => rfl
    | some a =>
      rw [h]
      by_cases ha : a = ""
      · subst ha; simp
      · simp [ha]

/-- Claim C10, witness: the theorem applied to a submission answering the
empty string to a question whose stored correct answer is also the empty
string — still scored incorrect. -/
theorem c10_witness : answer_is_correct [(1, "")] ⟨1, 1, "", 0⟩ = false :=
  (c10_answer_semantics [(1, "")] ⟨1, 1, "", 0⟩).2.1 rfl

/-- Claim C3, counterexample: on the three-question game with one correct
answer, the stored score is exactly 100/3 — not the claimed
round(100·1/3) = 33 and not an integer, refuting the rounding clause. -/
theorem c3_counterexample :
    (submit_game_answers exDB3 1 7 exAns3).1.map GameResult.score
      = some ((100 : Rat) / 3) ∧
    (100 : Rat) / 3 ≠ 33 := by
  constructor
  · rw [submit_game_answers_new exDB3 1 7 exAns3 exGame rfl
      (by rw [exDB3_questions]; exact fun hc => List.noConfusion hc) rfl]
    show some (scored_result exDB3 1 7 exAns3 exGame).score = some ((100 : Rat) / 3)
    have hscore : (scored_result exDB3 1 7 exAns3 exGame).score
        = ((1 : Rat) / (3 : Rat)) * 100 := by
      have hc : (get_game_questions exDB3 1).countP (answer_is_correct exAns3) = 1 := by
        rw [exDB3_questions]; decide
      have hl : (get_game_questions exDB3 1).length = 3 := by
        rw [exDB3_questions]
        rfl
      show (((get_game_questions exDB3 1).countP (answer_is_correct exAns3) : Rat) /
          ((get_game_questions exDB3 1).length : Rat)) * 100 = ((1 : Rat) / (3 : Rat)) * 100
      rw [hc, hl]
      norm_num
    rw [hscore]
    norm_num
  · norm_num

/-- Claim C3 (corrected): on the fresh-submission path the stored score is
the exact ratio 100·correctCount/totalQuestions — not rounded, hence an
integer only when totalQuestions divides 100·correctCount — always within
[0, 100], equal to 100 on a fully matching answer set and 0 on an empty or
fully non-matching one; the stored points are the Python `int(...)`
truncation of scorePercent/100 · pointsReward (which coincides with the
claimed floor whenever the stored reward is nonnegative), with no further
multiplier applied at scoring time. -/
theorem c3_amended (db : DB) (game_id user_id : Nat)
    (answers : List (Nat × String)) (game : Game)
    (hg : get_game db game_id = some game)
    (hq : get_game_questions db game_id ≠ [])
    (he : get_user_game_results db user_id game_id = none) :
    ∃ r : GameResult, (submit_game_answers db game_id user_id answers).1 = some r ∧
      r.score = (((get_game_questions db game_id).countP (answer_is_correct answers) : Rat) /
          ((get_game_questions db game_id).length : Rat)) * 100 ∧
      0 ≤ r.score ∧ r.score ≤ 100 ∧
      r.total_points = pyInt ((r.score / 100) * (game.points_reward : Rat)) ∧
      (0 ≤ game.points_reward →
        r.total_points = ⌊(r.score / 100) * (game.points_reward : Rat)⌋) ∧
      ((∀ q ∈ get_game_questions db game_id, answer_is_correct answers q = true) →
        r.score = 100) ∧
      ((∀ q ∈ get_game_questions db game_id, answer_is_correct answers q = false) →
        r.score = 0) ∧
      (answers = [] → r.score = 0) := by
  have hres := submit_game_answers_new db game_id user_id answers game hg hq he
  have hn : (get_game_questions db game_id).length ≠ 0 :=
    fun h0 => hq (List.length_eq_zero.mp h0)
  have hnQ : (0 : Rat) < ((get_game_questions db game_id).length : Rat) := by
    exact_mod_cast Nat.pos_of_ne_zero hn
  have hsp0 : (0 : Rat) ≤
      (((get_game_questions db game_id).countP (answer_is_correct answers) : Rat) /
        ((get_game_questions db game_id).length : Rat)) * 100 := by positivity
  refine ⟨scored_result db game_id user_id answers game, by rw [hres], rfl,
    hsp0, ?_, rfl, ?_, ?_, ?_, ?_⟩
  · show (((get_game_questions db game_id).countP (answer_is_correct answers) : Rat) /
        ((get_game_questions db game_id).length : Rat)) * 100 ≤ 100
    have hcn : (get_game_questions db game_id).countP (answer_is_correct answers)
        ≤ (get_game_questions db game_id).length := List.countP_le_length _
    have h1 : (((get_game_questions db game_id).countP (answer_is_correct answers) : Rat))
        ≤ ((get_game_questions db game_id).length : Rat) := by exact_mod_cast hcn
    have h2 := div_le_one_of_le₀ h1 (le_of_lt hnQ)
    nlinarith [h2]
  · intro hpr
    show pyInt ((((((get_game_questions db game_id).countP (answer_is_correct answers) : Rat) /
          ((get_game_questions db game_id).length : Rat)) * 100) / 100) *
        (game.points_reward : Rat))
      = ⌊(((((get_game_questions db game_id).countP (answer_is_correct answers) : Rat) /
          ((get_game_questions db game_id).length : Rat)) * 100) / 100) *
        (game.points_reward : Rat)⌋
    apply pyInt_eq_floor
    apply mul_nonneg
    · apply div_nonneg hsp0
      norm_num
    · exact_mod_cast hpr
  · intro hall
    have hc := List.countP_eq_length.mpr hall
    show (((get_game_questions db game_id).countP (answer_is_correct answers) : Rat) /
        ((get_game_questions db game_id).length : Rat)) * 100 = 100
    rw [hc, div_self (ne_of_gt hnQ), one_mul]
  · intro hzero
    have hc : (get_game_questions db game_id).countP (answer_is_correct answers) = 0 :=
      List.countP_eq_zero.mpr (fun a ha => by rw [hzero a ha]; exact fun h => Bool.noConfusion h)
    show (((get_game_questions db game_id).countP (answer_is_correct answers) : Rat) /
        ((get_game_questions db game_id).length : Rat)) * 100 = 0
    rw [hc]
    simp
  · intro hemp
    subst hemp
    have hc : (get_game_questions db game_id).countP (answer_is_correct []) = 0 :=
      List.countP_eq_zero.mpr (fun a _ => by
        show ¬ answer_is_correct [] a = true
        rw [show answer_is_correct [] a = false from rfl]
        exact fun h => Bool.noConfusion h)
    show (((get_game_questions db game_id).countP (answer_is_correct []) : Rat) /
        ((get_game_questions db game_id).length : Rat)) * 100 = 0
    rw [hc]
    simp

/-- Claim C3, witness: the amended theorem instantiated on the
three-question game with one correct answer. -/
theorem c3_witness :
    ∃ r : GameResult, (submit_game_answers exDB3 1 7 exAns3).1 = some r ∧
      r.score = (((get_game_questions exDB3 1).countP (answer_is_correct exAns3) : Rat) /
          ((get_game_questions exDB3 1).length : Rat)) * 100 ∧
      0 ≤ r.score ∧ r.score ≤ 100 ∧
      r.total_points = pyInt ((r.score / 100) * (exGame.points_reward : Rat)) ∧
      (0 ≤ exGame.points_reward →
        r.total_points = ⌊(r.score / 100) * (exGame.points_reward : Rat)⌋) ∧
      ((∀ q ∈ get_game_questions exDB3 1, answer_is_correct exAns3 q = true) →
        r.score = 100) ∧
      ((∀ q ∈ get_game_questions exDB3 1, answer_is_correct exAns3 q = false) →
        r.score = 0) ∧
      (exAns3 = [] → r.score = 0) :=
  c3_amended exDB3 1 7 exAns3 exGame rfl
    (by rw [exDB3_questions]; exact fun hc => List.noConfusion hc) rfl

/-- Claim C6 (confirmed): the leaderboard is sorted descending by total
points; each entry's rank is its 1-based position; truncating to a smaller
limit yields exactly the prefix of the larger-limit board, so rank values
are unaffected by truncation; and whenever the limit covers the user table,
every user appears — one with no results with totals 0/0 rather than being
omitted. -/
theorem c6_leaderboard (db : DB) (limit : Nat) :
    (get_leaderboard db limit).Pairwise
        (fun e1 e2 => e2.total_points ≤ e1.total_points) ∧
    (∀ i : Fin (get_leaderboard db limit).length,
      ((get_leaderboard db limit).get i).rank = i.1 + 1) ∧
    (∀ l1 l2 : Nat, l1 ≤ l2 →
      get_leaderboard db l1 = (get_leaderboard db l2).take l1) ∧
    (∀ u ∈ db.users, db.users.length ≤ limit →
      ∃ e ∈ get_leaderboard db limit, e.user_id = u.id ∧ e.full_name = u.full_name ∧
        (db.game_results.filter (fun r => r.user_id == u.id) = [] →
          e.total_points = 0 ∧ e.games_played = 0)) := by
  refine ⟨?_, ?_, ?_, ?_⟩
  · exact rank_from_pairwise 1 _
      (List.Pairwise.sublist (List.take_sublist _ _) (sorted_rows_pairwise db))
  · intro i
    have h := rank_from_get 1 ((sorted_rows db).take limit) i
    rw [Nat.add_comm] at h
    exact h
  · intro l1 l2 hle
    unfold get_leaderboard
    rw [← rank_from_take, List.take_take, Nat.min_eq_left hle]
  · intro u hu hlim
    have hrow : leaderboard_row db u ∈ db.users.map (leaderboard_row db) :=
      List.mem_map_of_mem _ hu
    have hsor : leaderboard_row db u ∈ sorted_rows db :=
      (sorted_rows_perm db).mem_iff.mpr hrow
    have htake : (sorted_rows db).take limit = sorted_rows db :=
      List.take_of_length_le (by rw [sorted_rows_length]; exact hlim)
    rcases rank_from_mem hsor 1 with ⟨e, he, h1, h2, h3, h4⟩
    refine ⟨e, ?_, ?_, ?_, ?_⟩
    · unfold get_leaderboard
      rw [htake]
      exact he
    · rw [h1, leaderboard_row_user_id]
    · rw [h2, leaderboard_row_full_name]
    · intro hempty
      have hr := leaderboard_row_of_no_results db u hempty
      exact ⟨by rw [h3, hr], by rw [h4, hr]⟩

/-- Claim C6, witness: the spec's own example — limit 2 over three users —
obtained by applying the theorem's truncation clause with limits 2 ≤ 3. -/
theorem c6_witness : get_leaderboard exDB6 2 = (get_leaderboard exDB6 3).take 2 :=
  (c6_leaderboard exDB6 2).2.2.1 2 3 (by omega)

/-- Claim C7 (confirmed): when the limit covers the whole user table, user
ids are unique, and every stored result references an existing user, the
games-played counts over all leaderboard entries sum to the total number of
stored results. -/
theorem c7_games_sum (db : DB) (limit : Nat)
    (hlim : db.users.length ≤ limit)
    (hnodup : (db.users.map (fun u => u.id)).Nodup)
    (href : ∀ res ∈ db.game_results, res.user_id ∈ db.users.map (fun u => u.id)) :
    ((get_leaderboard db limit).map (fun e => e.games_played)).sum
      = (db.game_results.length : Int) := by
  unfold get_leaderboard
  rw [List.take_of_length_le (by rw [sorted_rows_length]; exact hlim)]
  rw [rank_from_map_games]
  have hperm := (sorted_rows_perm db).map (fun row : LbRow => row.games_played)
  rw [hperm.sum_eq, List.map_map]
  have hcomp : ((fun row : LbRow => row.games_played) ∘ leaderboard_row db)
      = fun u => ((db.game_results.filter (fun r => r.user_id == u.id)).length : Int) :=
    funext fun u => leaderboard_row_games db u
  rw [hcomp]
  have hmain := sum_filter_counts (db.users.map (fun u => u.id)) db.game_results hnodup href
  rw [List.map_map] at hmain
  exact hmain

/-- Claim C7, witness: the theorem applied to the three-user store with
three results in total. -/
theorem c7_witness :
    ((get_leaderboard exDB6 50).map (fun e => e.games_played)).sum
      = (exDB6.game_results.length : Int) :=
  c7_games_sum exDB6 50 (by decide) (by decide) (by decide)

end ShortHack
